import Mathlib

/-!
# Verification of the `useChat` streaming-chat hook (`src/packages/core/solid/use-chat.ts`)

This file gives a shallow embedding of the request/stream/state-reconciliation
engine of the `useChat` hook and proves the specification's claims about it.

The embedding models one execution of `triggerRequest` for one conversation key:

* the keyed conversation store is represented by the single cell for that key
  (`StoreCell`); `mutate` always writes status `success` together with the data;
* the outside world (the `fetch` outcome, the behaviour of the `onResponse`
  hook, and the sequence of `reader.read()` observations, including the points
  at which `stop()` takes effect) is an explicit environment (`Env`);
* the stream reader is a list of `ReadEvent`s: each successfully resolved read
  delivers the text produced by the chunk decoder for that chunk, together with
  a flag recording whether `stop()` ran while that read was pending (so that
  the `abortController === null` check after the store write fires); a read can
  instead reject with an `AbortError` (`ReadEvent.abortReject`), which is how a
  `stop()` issued during a pending read is usually observed.  Exhaustion of the
  event list is the `done` read.
* The chunk decoder (`createChunkDecoder` from `../shared/utils`, not part of
  the sources) is modelled from the spec: it is a stateful byte-to-text decoder
  that withholds a trailing incomplete multi-byte sequence until the next call,
  so a single read's decoded text may be the empty string (for example when the
  chunk ends inside a multi-byte character).  The events therefore carry the
  decoder's *output* for each read.
* Hooks (`onFinish`, `onError`) are modelled as non-throwing observers whose
  invocations are recorded in the output; thrown values are modelled as JS
  `Error` objects (`Err`), carrying the `name` used by the
  `err.name === 'AbortError'` test and the `message`.

All definitions are executable, so each theorem can be evaluated on concrete
inputs.
-/

/-- Message roles (from the shared `Message` type: `user`, `assistant`,
`system`). -/
inductive Role where
  | user
  | assistant
  | system
deriving DecidableEq, Repr

/-- A chat message: `{ id, createdAt, role, content }`.  `createdAt` is an
abstract timestamp. -/
structure Message where
  id : String
  createdAt : Nat
  role : Role
  content : String
deriving DecidableEq, Repr

/-- Status tag of a store record, as returned by `chatApiStore.get`. -/
inductive StoreStatus where
  | pending
  | success
  | error
deriving DecidableEq, Repr

/-- The conversation-store cell for the conversation key: the status tag and
the current message list. -/
structure StoreCell where
  status : StoreStatus
  data : List Message
deriving DecidableEq, Repr

/-- The `mutate` helper of the hook: writing `data` for the key always marks
the record `success`. -/
def mutateCell (data : List Message) : StoreCell :=
  { status := StoreStatus.success, data := data }

/-- A JS `Error` value as far as `triggerRequest` inspects it: the `name`
(compared against `'AbortError'`) and the `message`. -/
structure Err where
  name : String
  message : String
deriving DecidableEq, Repr

/-- One observation of `reader.read()`:
* `chunk text stopped`: the read resolved with a chunk whose decoded text is
  `text`; `stopped` records whether `stop()` ran while this read was pending
  yet the read still resolved, so that `abortController` is `null` at the
  check following the store write;
* `abortReject`: the read rejected with an `AbortError` (the usual observation
  of `stop()` during a pending read).
Exhaustion of the event list models the `done` read. -/
inductive ReadEvent where
  | chunk (text : String) (stopped : Bool)
  | abortReject
deriving DecidableEq, Repr

/-- Outcome of the `fetch` call: either the promise rejects with an error, or
it resolves with a response carrying `ok`, the text used for `res.text()`, and
`res.body` (`none` models an absent body; `some events` the readable stream). -/
inductive FetchResult where
  | reject (e : Err)
  | respond (ok : Bool) (bodyText : String) (body : Option (List ReadEvent))
deriving DecidableEq, Repr

/-- Behaviour of the configured `onResponse` hook on this request: absent,
resolving normally, or throwing `e`. -/
inductive HookResult where
  | absent
  | ok
  | throws (e : Err)
deriving DecidableEq, Repr

/-- The error thrown by the `onResponse` hook, if any. -/
def hookError : HookResult → Option Err
  | HookResult.throws e => some e
  | _ => none

/-- The environment of one `triggerRequest` run: everything the outside world
decides. -/
structure Env where
  fetchResult : FetchResult
  onResponse : HookResult
deriving DecidableEq, Repr

/-- Per-run configuration: the `sendExtraMessageFields` option, whether the
`onError` / `onFinish` hooks are configured, and the values produced by
`nanoid()` and `new Date()` for the streamed assistant reply. -/
structure Config where
  sendExtraMessageFields : Bool
  onErrorPresent : Bool
  onFinishPresent : Bool
  replyId : String
  createdAt : Nat
deriving DecidableEq, Repr

/-- A message as it appears in the serialized request body: either the full
message object, or the stripped `{ role, content }` projection. -/
inductive WireMessage where
  | full (m : Message)
  | stripped (role : Role) (content : String)
deriving DecidableEq, Repr

/-- Serialization of the `messages` field of the request body:
`sendExtraMessageFields ? messagesSnapshot
: messagesSnapshot.map(({role, content}) => ({role, content}))`.  The option
defaults to `false` (undefined is falsy), i.e. stripping. -/
def serializeBodyMessages (sendExtraMessageFields : Bool)
    (messagesSnapshot : List Message) : List WireMessage :=
  if sendExtraMessageFields then
    messagesSnapshot.map WireMessage.full
  else
    messagesSnapshot.map (fun m => WireMessage.stripped m.role m.content)

/-- The synthetic assistant tail message written on every chunk:
`{ id: replyId, createdAt, content, role: 'assistant' }`. -/
def assistantMessage (cfg : Config) (content : String) : Message :=
  { id := cfg.replyId, createdAt := cfg.createdAt, role := Role.assistant,
    content := content }

/-- The value a JS promise settles with, as seen by the caller of
`triggerRequest` (and hence of `append` / `reload`): a string, `null`, or
`undefined` (the implicit return of the catch block). -/
inductive TriggerResult where
  | text (s : String)
  | null
  | undef
deriving DecidableEq, Repr

/-- Observable outcome of one `triggerRequest` run. `writes` records every
`mutate` call's data argument in order (the optimistic write first);
`store` is the final cell for the key; `errorSig` the final value of the
`error` signal; `isLoading` the final value of the loading signal;
`onErrorCalls` / `onFinishCalls` the hook invocations. -/
structure TriggerOutput where
  result : TriggerResult
  store : StoreCell
  writes : List (List Message)
  errorSig : Option Err
  isLoading : Bool
  requestBody : List WireMessage
  onErrorCalls : List Err
  onFinishCalls : List Message
deriving DecidableEq, Repr

/-- The `while (true)` read loop: successively consumes read events, keeping
the accumulated reply text.  Returns the final accumulated text, the list of
store writes performed by the loop, and whether the loop terminated by a read
rejecting with an `AbortError` (in which case the exception propagates to the
catch block).  A `stopped` chunk still performs its store write, then hits the
`abortController === null` check and breaks out of the loop normally. -/
def readLoop (cfg : Config) (messagesSnapshot : List Message) :
    List ReadEvent → String → String × List (List Message) × Bool
  | [], result => (result, [], false)
  | ReadEvent.abortReject :: _, result => (result, [], true)
  | ReadEvent.chunk text stopped :: rest, result =>
      let result2 := result ++ text
      let write := messagesSnapshot ++ [assistantMessage cfg result2]
      if stopped then
        (result2, [write], false)
      else
        let r := readLoop cfg messagesSnapshot rest result2
        (r.1, write :: r.2.1, r.2.2)

/-- The `AbortError` with which an aborted `reader.read()` rejects. -/
def abortReadError : Err :=
  { name := "AbortError", message := "The user aborted a request." }

/-- The catch block of `triggerRequest`: an `AbortError` is benign (the run
resolves with `null`, no error is surfaced); any other error is passed to the
`onError` hook (when configured) and recorded in the `error` signal, and the
run resolves with `undefined`.  The finally block clears the loading signal in
both cases. -/
def catchClause (cfg : Config) (st : StoreCell) (writes : List (List Message))
    (requestBody : List WireMessage) (e : Err) : TriggerOutput :=
  if e.name = "AbortError" then
    { result := TriggerResult.null, store := st, writes := writes,
      errorSig := none, isLoading := false, requestBody := requestBody,
      onErrorCalls := [], onFinishCalls := [] }
  else
    { result := TriggerResult.undef, store := st, writes := writes,
      errorSig := some e, isLoading := false, requestBody := requestBody,
      onErrorCalls := if cfg.onErrorPresent then [e] else [],
      onFinishCalls := [] }

/-- One run of `triggerRequest messagesSnapshot` against pre-request store
cell `st0` (the value `chatApiStore.get` returns as `previousMessages`) and
environment `env`.  Faithfully follows the source: clear the error signal, set
loading, snapshot `previousMessages`, optimistically `mutate(messagesSnapshot)`,
serialize and issue the fetch; on fetch rejection restore `previousMessages`
when its status was `success` and rethrow; run `onResponse`; on `!res.ok`
restore likewise and throw an error whose message is the body text or the
default; on `!res.body` throw (without restoring); otherwise run the read
loop, then invoke `onFinish` with the assistant message and resolve with the
accumulated text.  The catch/finally blocks are `catchClause`. -/
def triggerRequest (cfg : Config) (st0 : StoreCell)
    (messagesSnapshot : List Message) (env : Env) : TriggerOutput :=
  let previousMessages := st0
  let requestBody := serializeBodyMessages cfg.sendExtraMessageFields messagesSnapshot
  match env.fetchResult with
  | FetchResult.reject e =>
      let st := if previousMessages.status = StoreStatus.success then
                  mutateCell previousMessages.data
                else mutateCell messagesSnapshot
      let ws := if previousMessages.status = StoreStatus.success then
                  [messagesSnapshot, previousMessages.data]
                else [messagesSnapshot]
      catchClause cfg st ws requestBody e
  | FetchResult.respond ok bodyText body =>
      match hookError env.onResponse with
      | some e => catchClause cfg (mutateCell messagesSnapshot)
          [messagesSnapshot] requestBody e
      | none =>
        if ok = false then
          let st := if previousMessages.status = StoreStatus.success then
                      mutateCell previousMessages.data
                    else mutateCell messagesSnapshot
          let ws := if previousMessages.status = StoreStatus.success then
                      [messagesSnapshot, previousMessages.data]
                    else [messagesSnapshot]
          catchClause cfg st ws requestBody
            { name := "Error",
              message := if bodyText = "" then
                  "Failed to fetch the chat response."
                else bodyText }
        else
          match body with
          | none =>
              catchClause cfg (mutateCell messagesSnapshot) [messagesSnapshot]
                requestBody
                { name := "Error", message := "The response body is empty." }
          | some events =>
              let r := readLoop cfg messagesSnapshot events ""
              let ws := messagesSnapshot :: r.2.1
              let st := mutateCell (ws.getLastD [])
              if r.2.2 then
                catchClause cfg st ws requestBody abortReadError
              else
                { result := TriggerResult.text r.1, store := st, writes := ws,
                  errorSig := none, isLoading := false,
                  requestBody := requestBody, onErrorCalls := [],
                  onFinishCalls :=
                    if cfg.onFinishPresent then [assistantMessage cfg r.1]
                    else [] }

/-- The `reload` decision: `none` means `reload` resolves `null` without
issuing a request; `some l` means it delegates `triggerRequest l`.  An empty
current list resolves `null`; a list whose last message has role `assistant`
is resubmitted with that message dropped; otherwise the list is resubmitted
unchanged. -/
def reloadAction (messagesSnapshot : List Message) : Option (List Message) :=
  match messagesSnapshot.getLast? with
  | none => none
  | some lastMessage =>
      if lastMessage.role = Role.assistant then
        some messagesSnapshot.dropLast
      else
        some messagesSnapshot

/-- Id assignment performed by `append`: a missing id (modelled as `""`) is
replaced by a fresh `nanoid()` value. -/
def ensureId (freshId : String) (message : Message) : Message :=
  if message.id = "" then { message with id := freshId } else message

/-- The `append` operation: extend the current list with the (id-completed)
message and delegate to `triggerRequest`; the returned promise is exactly the
one `triggerRequest` produces. -/
def append (cfg : Config) (st0 : StoreCell) (env : Env)
    (current : List Message) (message : Message) (freshId : String) :
    TriggerOutput :=
  triggerRequest cfg st0 (current ++ [ensureId freshId message]) env

/-- The list of read events for a stream that delivers the given decoded
chunks and then completes normally (no `stop()` interference). -/
def normalEvents (chunks : List String) : List ReadEvent :=
  chunks.map (fun c => ReadEvent.chunk c false)

/-- In-order concatenation of a list of decoded chunks. -/
def joinChunks : List String → String
  | [] => ""
  | c :: cs => c ++ joinChunks cs

/-- The store writes the read loop performs for decoded chunks `cs` when the
accumulated text so far is `acc`: one write per chunk, each the snapshot plus
the assistant tail carrying the accumulated text. -/
def streamWrites (cfg : Config) (messagesSnapshot : List Message) :
    String → List String → List (List Message)
  | _, [] => []
  | acc, c :: cs =>
      (messagesSnapshot ++ [assistantMessage cfg (acc ++ c)]) ::
        streamWrites cfg messagesSnapshot (acc ++ c) cs

/-- The successive accumulated texts over a list of decoded chunks. -/
def cumTexts : String → List String → List String
  | _, [] => []
  | acc, c :: cs => (acc ++ c) :: cumTexts (acc ++ c) cs

/-- Whether running the read loop on these events ends in a read rejecting
with an `AbortError` (a `stopped` chunk breaks the loop before any later
rejection is observed). -/
def streamAborts : List ReadEvent → Bool
  | [] => false
  | ReadEvent.abortReject :: _ => true
  | ReadEvent.chunk _ stopped :: rest => if stopped then false else streamAborts rest

/-- A placeholder message used only as the default of `List.getLastD`. -/
def dummyMessage : Message :=
  { id := "", createdAt := 0, role := Role.user, content := "" }

/-- The content of the trailing message of a store write. -/
def tailContent (w : List Message) : String :=
  (w.getLastD dummyMessage).content

theorem readLoop_normal_append (cfg : Config) (snap : List Message)
    (cs : List String) (evs : List ReadEvent) (acc : String) :
    readLoop cfg snap (normalEvents cs ++ evs) acc =
      ((readLoop cfg snap evs (acc ++ joinChunks cs)).1,
       streamWrites cfg snap acc cs ++
         (readLoop cfg snap evs (acc ++ joinChunks cs)).2.1,
       (readLoop cfg snap evs (acc ++ joinChunks cs)).2.2) := by
  induction cs generalizing acc with
  | nil =>
      simp [normalEvents, joinChunks, streamWrites, String.append_empty]
  | cons c cs ih =>
      show ((readLoop cfg snap (normalEvents cs ++ evs) (acc ++ c)).1,
          (snap ++ [assistantMessage cfg (acc ++ c)]) ::
            (readLoop cfg snap (normalEvents cs ++ evs) (acc ++ c)).2.1,
          (readLoop cfg snap (normalEvents cs ++ evs) (acc ++ c)).2.2)
        = ((readLoop cfg snap evs (acc ++ joinChunks (c :: cs))).1,
          streamWrites cfg snap acc (c :: cs) ++
            (readLoop cfg snap evs (acc ++ joinChunks (c :: cs))).2.1,
          (readLoop cfg snap evs (acc ++ joinChunks (c :: cs))).2.2)
      rw [ih (acc ++ c)]
      rw [show acc ++ joinChunks (c :: cs) = (acc ++ c) ++ joinChunks cs from by
        show acc ++ (c ++ joinChunks cs) = (acc ++ c) ++ joinChunks cs
        exact (String.append_assoc acc c (joinChunks cs)).symm]
      rfl

theorem readLoop_normal (cfg : Config) (snap : List Message)
    (cs : List String) (acc : String) :
    readLoop cfg snap (normalEvents cs) acc =
      (acc ++ joinChunks cs, streamWrites cfg snap acc cs, false) := by
  have h := readLoop_normal_append cfg snap cs [] acc
  simpa [readLoop] using h

theorem streamWrites_map_tailContent (cfg : Config) (snap : List Message)
    (cs : List String) (acc : String) :
    (streamWrites cfg snap acc cs).map tailContent = cumTexts acc cs := by
  induction cs generalizing acc with
  | nil => simp [streamWrites, cumTexts]
  | cons c cs ih =>
      simp only [streamWrites, cumTexts, List.map_cons, ih]
      simp [tailContent, assistantMessage, List.getLastD_concat]

theorem cumTexts_chain_le (cs : List String) (acc : String) :
    List.Chain' (fun a b : String => a.length ≤ b.length)
      (acc :: cumTexts acc cs) := by
  induction cs generalizing acc with
  | nil => simp [cumTexts]
  | cons c cs ih =>
      simp only [cumTexts]
      exact List.Chain'.cons (by simp [String.length_append]) (ih (acc ++ c))

theorem cumTexts_chain_lt (cs : List String) (acc : String)
    (h : ∀ c ∈ cs, c ≠ "") :
    List.Chain' (fun a b : String => a.length < b.length)
      (acc :: cumTexts acc cs) := by
  induction cs generalizing acc with
  | nil => simp [cumTexts]
  | cons c cs ih =>
      simp only [cumTexts]
      refine List.Chain'.cons ?_ (ih (acc ++ c) (fun d hd => h d (by simp [hd])))
      have hc : c ≠ "" := h c (by simp)
      have hlen : 0 < c.length := by
        rcases c with ⟨data⟩
        cases data with
        | nil => exact absurd rfl hc
        | cons x xs => simp [String.length]
      simp [String.length_append]
      omega

theorem cumTexts_getLastD (c : String) (cs : List String) (acc d : String) :
    (cumTexts acc (c :: cs)).getLastD d = acc ++ joinChunks (c :: cs) := by
  induction cs generalizing acc c d with
  | nil => simp [cumTexts, joinChunks, String.append_empty]
  | cons c2 cs2 ih =>
      show (List.getLastD ((acc ++ c) :: cumTexts (acc ++ c) (c2 :: cs2)) d) = _
      rw [List.getLastD_cons, ih c2 (acc ++ c) (acc ++ c)]
      show (acc ++ c) ++ joinChunks (c2 :: cs2) = acc ++ (c ++ joinChunks (c2 :: cs2))
      exact String.append_assoc acc c (joinChunks (c2 :: cs2))

theorem streamWrites_getLastD (cfg : Config) (snap : List Message)
    (c : String) (cs : List String) (acc : String) (d : List Message) :
    (streamWrites cfg snap acc (c :: cs)).getLastD d =
      snap ++ [assistantMessage cfg (acc ++ joinChunks (c :: cs))] := by
  induction cs generalizing acc c d with
  | nil => simp [streamWrites, joinChunks, String.append_empty]
  | cons c2 cs2 ih =>
      show (List.getLastD
        ((snap ++ [assistantMessage cfg (acc ++ c)]) ::
          streamWrites cfg snap (acc ++ c) (c2 :: cs2)) d) = _
      rw [List.getLastD_cons,
        ih c2 (acc ++ c) (snap ++ [assistantMessage cfg (acc ++ c)])]
      rw [show acc ++ joinChunks (c :: c2 :: cs2)
            = acc ++ (c ++ joinChunks (c2 :: cs2)) from rfl]
      rw [← String.append_assoc acc c (joinChunks (c2 :: cs2))]

theorem streamWrites_mem (cfg : Config) (snap : List Message)
    (cs : List String) (acc : String) (w : List Message)
    (hw : w ∈ streamWrites cfg snap acc cs) :
    ∃ s : String, w = snap ++ [assistantMessage cfg s] := by
  induction cs generalizing acc with
  | nil => simp [streamWrites] at hw
  | cons c cs ih =>
      simp only [streamWrites, List.mem_cons] at hw
      rcases hw with h | h
      · exact ⟨acc ++ c, h⟩
      · exact ih (acc ++ c) h

theorem readLoop_aborts (cfg : Config) (snap : List Message)
    (evs : List ReadEvent) (acc : String) :
    (readLoop cfg snap evs acc).2.2 = streamAborts evs := by
  induction evs generalizing acc with
  | nil => rfl
  | cons e rest ih =>
      cases e with
      | abortReject => rfl
      | chunk text stopped =>
          cases stopped with
          | false => simpa [readLoop, streamAborts] using ih (acc ++ text)
          | true => simp [readLoop, streamAborts]

theorem catchClause_requestBody (cfg : Config) (st : StoreCell)
    (ws : List (List Message)) (rb : List WireMessage) (e : Err) :
    (catchClause cfg st ws rb e).requestBody = rb := by
  unfold catchClause
  split <;> rfl

theorem catchClause_isLoading (cfg : Config) (st : StoreCell)
    (ws : List (List Message)) (rb : List WireMessage) (e : Err) :
    (catchClause cfg st ws rb e).isLoading = false := by
  unfold catchClause
  split <;> rfl

theorem triggerRequest_requestBody (cfg : Config) (st0 : StoreCell)
    (snap : List Message) (env : Env) :
    (triggerRequest cfg st0 snap env).requestBody =
      serializeBodyMessages cfg.sendExtraMessageFields snap := by
  rcases env with ⟨fr, hr⟩
  cases fr with
  | reject e => simp [triggerRequest, catchClause_requestBody]
  | respond ok bodyText body =>
      cases hhr : hookError hr with
      | some e => simp [triggerRequest, hhr, catchClause_requestBody]
      | none =>
          cases ok with
          | false => simp [triggerRequest, hhr, catchClause_requestBody]
          | true =>
              cases body with
              | none => simp [triggerRequest, hhr, catchClause_requestBody]
              | some events =>
                  simp only [triggerRequest, hhr]
                  split
                  · simp_all
                  split <;> simp [catchClause_requestBody]

theorem triggerRequest_isLoading (cfg : Config) (st0 : StoreCell)
    (snap : List Message) (env : Env) :
    (triggerRequest cfg st0 snap env).isLoading = false := by
  rcases env with ⟨fr, hr⟩
  cases fr with
  | reject e => simp [triggerRequest, catchClause_isLoading]
  | respond ok bodyText body =>
      cases hhr : hookError hr with
      | some e => simp [triggerRequest, hhr, catchClause_isLoading]
      | none =>
          cases ok with
          | false => simp [triggerRequest, hhr, catchClause_isLoading]
          | true =>
              cases body with
              | none => simp [triggerRequest, hhr, catchClause_isLoading]
              | some events =>
                  simp only [triggerRequest, hhr]
                  split
                  · simp_all
                  split <;> simp [catchClause_isLoading]

theorem triggerRequest_stream (cfg : Config) (st0 : StoreCell)
    (snap : List Message) (events : List ReadEvent) (bodyText : String)
    (hr : HookResult) (h : hookError hr = none) :
    triggerRequest cfg st0 snap
        { fetchResult := FetchResult.respond true bodyText (some events),
          onResponse := hr } =
      (if (readLoop cfg snap events "").2.2 then
        catchClause cfg
          (mutateCell ((snap :: (readLoop cfg snap events "").2.1).getLastD []))
          (snap :: (readLoop cfg snap events "").2.1)
          (serializeBodyMessages cfg.sendExtraMessageFields snap) abortReadError
      else
        { result := TriggerResult.text (readLoop cfg snap events "").1,
          store :=
            mutateCell ((snap :: (readLoop cfg snap events "").2.1).getLastD []),
          writes := snap :: (readLoop cfg snap events "").2.1,
          errorSig := none, isLoading := false,
          requestBody := serializeBodyMessages cfg.sendExtraMessageFields snap,
          onErrorCalls := [],
          onFinishCalls :=
            if cfg.onFinishPresent then
              [assistantMessage cfg (readLoop cfg snap events "").1]
            else [] }) := by
  simp only [triggerRequest, h]
  exact if_neg (by simp)

/-- A sample configuration used by concrete evaluations. -/
def sampleConfig : Config :=
  { sendExtraMessageFields := false, onErrorPresent := true,
    onFinishPresent := true, replyId := "reply-1", createdAt := 7 }

/-- A sample user message. -/
def userHi : Message :=
  { id := "u1", createdAt := 1, role := Role.user, content := "hi" }

/-- A second sample user message. -/
def userBye : Message :=
  { id := "u2", createdAt := 3, role := Role.user, content := "bye" }

/-- A sample assistant message from an earlier exchange. -/
def assistantPrev : Message :=
  { id := "a0", createdAt := 2, role := Role.assistant,
    content := "earlier reply" }

/-- C6: for every message list, `reload` resolves `null` without issuing any
request when the list is empty; when the last message's role is `assistant`
it submits the list with that last message dropped; otherwise it submits the
list unchanged. -/
theorem reload_empty_drop_or_resubmit (messagesSnapshot : List Message) :
    (messagesSnapshot = [] → reloadAction messagesSnapshot = none) ∧
    (∀ lastMessage, messagesSnapshot.getLast? = some lastMessage →
      (lastMessage.role = Role.assistant →
        reloadAction messagesSnapshot = some messagesSnapshot.dropLast) ∧
      (lastMessage.role ≠ Role.assistant →
        reloadAction messagesSnapshot = some messagesSnapshot)) := by
  refine ⟨?_, ?_⟩
  · intro h
    subst h
    rfl
  · intro lastMessage hlast
    refine ⟨fun hrole => ?_, fun hrole => ?_⟩
    · simp [reloadAction, hlast, hrole]
    · simp [reloadAction, hlast, hrole]

/-- C6 witness: `reload` on `[]` issues no request; on `[userHi,
assistantPrev]` resubmits `[userHi]`; on `[userHi]` resubmits unchanged. -/
theorem reload_empty_drop_or_resubmit_witness :
    reloadAction ([] : List Message) = none ∧
    reloadAction [userHi, assistantPrev] = some [userHi] ∧
    reloadAction [userHi] = some [userHi] := by
  refine ⟨?_, ?_, ?_⟩
  · exact (reload_empty_drop_or_resubmit []).1 rfl
  · exact ((reload_empty_drop_or_resubmit [userHi, assistantPrev]).2
      assistantPrev (by decide)).1 (by decide)
  · exact ((reload_empty_drop_or_resubmit [userHi]).2
      userHi (by decide)).2 (by decide)

/-- C7: in the serialized request body, when `sendExtraMessageFields` is
disabled (the default) every message carries only its `role` and `content`
fields, ids and timestamps stripped; when enabled, the messages are sent with
all their fields. -/
theorem request_body_strips_extra_fields (cfg : Config) (st0 : StoreCell)
    (messagesSnapshot : List Message) (env : Env) :
    (cfg.sendExtraMessageFields = false →
      (triggerRequest cfg st0 messagesSnapshot env).requestBody =
        messagesSnapshot.map (fun m => WireMessage.stripped m.role m.content)) ∧
    (cfg.sendExtraMessageFields = true →
      (triggerRequest cfg st0 messagesSnapshot env).requestBody =
        messagesSnapshot.map WireMessage.full) := by
  refine ⟨fun h => ?_, fun h => ?_⟩ <;>
    simp [triggerRequest_requestBody, serializeBodyMessages, h]

/-- C7 witness: with the option disabled, `userHi` is transmitted as its
`{ role, content }` projection only. -/
theorem request_body_strips_extra_fields_witness :
    (triggerRequest sampleConfig (mutateCell []) [userHi]
        { fetchResult := FetchResult.respond true "" (some []),
          onResponse := HookResult.absent }).requestBody =
      [WireMessage.stripped Role.user "hi"] := by
  exact (request_body_strips_extra_fields sampleConfig (mutateCell []) [userHi]
    { fetchResult := FetchResult.respond true "" (some []),
      onResponse := HookResult.absent }).1 rfl

/-- C8: every run of `triggerRequest`, whatever its terminal outcome
(success, error, or cancellation), ends with the loading signal reset to
`false`: the finally block runs on every path. -/
theorem isLoading_false_after_any_outcome (cfg : Config) (st0 : StoreCell)
    (messagesSnapshot : List Message) (env : Env) :
    (triggerRequest cfg st0 messagesSnapshot env).isLoading = false :=
  triggerRequest_isLoading cfg st0 messagesSnapshot env

/-- C1 counterexample: a stream that completes normally after zero chunks
performs no store write beyond the optimistic one, because the store write
sits inside the read loop.  The final store state is the bare snapshot
`[userHi]`, not the snapshot followed by an empty-content assistant message
as the claim asserts. -/
theorem zero_chunk_stream_keeps_bare_snapshot :
    (triggerRequest sampleConfig (mutateCell []) [userHi]
        { fetchResult := FetchResult.respond true "" (some []),
          onResponse := HookResult.ok }).store.data = [userHi] ∧
    (triggerRequest sampleConfig (mutateCell []) [userHi]
        { fetchResult := FetchResult.respond true "" (some []),
          onResponse := HookResult.ok }).store.data ≠
      [userHi] ++ [assistantMessage sampleConfig ""] := by
  refine ⟨by decide, by decide⟩

/-- C1 (amended): when the stream completes normally (the reader reports
done without error), the run resolves with the in-order concatenation of the
decoded chunks; if at least one chunk was received, the final store state for
the key is the submitted snapshot followed by exactly one assistant message
whose content is that concatenation; with zero chunks, however, no assistant
message is written to the store — the store keeps the bare snapshot, and the
empty-content assistant message is delivered only to the `onFinish` hook. -/
theorem stream_done_final_store (cfg : Config) (st0 : StoreCell)
    (snap : List Message) (chunks : List String) (bodyText : String)
    (hr : HookResult) (h : hookError hr = none) :
    (triggerRequest cfg st0 snap
        { fetchResult := FetchResult.respond true bodyText
            (some (normalEvents chunks)),
          onResponse := hr }).result =
      TriggerResult.text (joinChunks chunks) ∧
    (chunks ≠ [] →
      (triggerRequest cfg st0 snap
          { fetchResult := FetchResult.respond true bodyText
              (some (normalEvents chunks)),
            onResponse := hr }).store =
        mutateCell (snap ++ [assistantMessage cfg (joinChunks chunks)])) ∧
    (chunks = [] →
      (triggerRequest cfg st0 snap
          { fetchResult := FetchResult.respond true bodyText
              (some (normalEvents chunks)),
            onResponse := hr }).store = mutateCell snap ∧
      (triggerRequest cfg st0 snap
          { fetchResult := FetchResult.respond true bodyText
              (some (normalEvents chunks)),
            onResponse := hr }).onFinishCalls =
        (if cfg.onFinishPresent then [assistantMessage cfg ""] else [])) := by
  rw [triggerRequest_stream cfg st0 snap (normalEvents chunks) bodyText hr h,
    readLoop_normal]
  refine ⟨rfl, fun hne => ?_, fun he => ?_⟩
  · cases chunks with
    | nil => exact absurd rfl hne
    | cons c cs =>
        show mutateCell
            ((snap :: streamWrites cfg snap "" (c :: cs)).getLastD []) = _
        rw [List.getLastD_cons, streamWrites_getLastD]
        rfl
  · subst he
    exact ⟨rfl, rfl⟩

/-- C1 witness: for the single-request run streaming `"He"` then `"llo"`,
the run resolves with `"Hello"` and the final store is the snapshot plus one
assistant message with content `"Hello"`. -/
theorem stream_done_final_store_witness :
    (triggerRequest sampleConfig (mutateCell []) [userHi]
        { fetchResult := FetchResult.respond true ""
            (some (normalEvents ["He", "llo"])),
          onResponse := HookResult.ok }).result = TriggerResult.text "Hello" ∧
    (triggerRequest sampleConfig (mutateCell []) [userHi]
        { fetchResult := FetchResult.respond true ""
            (some (normalEvents ["He", "llo"])),
          onResponse := HookResult.ok }).store =
      mutateCell [userHi, assistantMessage sampleConfig "Hello"] := by
  have h := stream_done_final_store sampleConfig (mutateCell []) [userHi]
    ["He", "llo"] "" HookResult.ok rfl
  exact ⟨h.1, h.2.1 (by decide)⟩

theorem triggerRequest_normal_run (cfg : Config) (st0 : StoreCell)
    (snap : List Message) (chunks : List String) (bodyText : String)
    (hr : HookResult) (h : hookError hr = none) :
    triggerRequest cfg st0 snap
        { fetchResult := FetchResult.respond true bodyText
            (some (normalEvents chunks)),
          onResponse := hr } =
      { result := TriggerResult.text (joinChunks chunks),
        store := mutateCell ((snap :: streamWrites cfg snap "" chunks).getLastD []),
        writes := snap :: streamWrites cfg snap "" chunks,
        errorSig := none, isLoading := false,
        requestBody := serializeBodyMessages cfg.sendExtraMessageFields snap,
        onErrorCalls := [],
        onFinishCalls :=
          if cfg.onFinishPresent then [assistantMessage cfg (joinChunks chunks)]
          else [] } := by
  rw [triggerRequest_stream cfg st0 snap (normalEvents chunks) bodyText hr h,
    readLoop_normal]
  rfl

theorem tailContent_concat (l : List Message) (m : Message) :
    tailContent (l ++ [m]) = m.content := by
  simp [tailContent, List.getLastD_concat]

theorem cumTexts_map_length_le (cs : List String) (acc : String) :
    List.Chain' (fun a b : Nat => a ≤ b) ((cumTexts acc cs).map String.length) := by
  rw [List.chain'_map]
  exact (cumTexts_chain_le cs acc).tail

theorem cumTexts_map_length_lt (cs : List String) (acc : String)
    (h : ∀ c ∈ cs, c ≠ "") :
    List.Chain' (fun a b : Nat => a < b) ((cumTexts acc cs).map String.length) := by
  rw [List.chain'_map]
  exact (cumTexts_chain_lt cs acc h).tail

/-- C2 counterexample: in a two-chunk stream whose second chunk decodes to
the empty string (as happens when a read ends inside a multi-byte character,
which the stateful decoder withholds), the second chunk still triggers a
store write, and the trailing assistant message's content length stays at 1
across the two streaming writes — the content length is not strictly
growing. -/
theorem second_empty_chunk_no_strict_growth :
    ((triggerRequest sampleConfig (mutateCell []) [userHi]
        { fetchResult := FetchResult.respond true ""
            (some (normalEvents ["a", ""])),
          onResponse := HookResult.ok }).writes.drop 1).map
        (fun w => (tailContent w).length) = [1, 1] ∧
    ¬ List.Chain' (fun a b : Nat => a < b)
      (((triggerRequest sampleConfig (mutateCell []) [userHi]
          { fetchResult := FetchResult.respond true ""
              (some (normalEvents ["a", ""])),
            onResponse := HookResult.ok }).writes.drop 1).map
        (fun w => (tailContent w).length)) := by
  have h1 : ((triggerRequest sampleConfig (mutateCell []) [userHi]
      { fetchResult := FetchResult.respond true ""
          (some (normalEvents ["a", ""])),
        onResponse := HookResult.ok }).writes.drop 1).map
      (fun w => (tailContent w).length) = [1, 1] := by decide
  refine ⟨h1, ?_⟩
  rw [h1]
  simp [List.chain'_cons]

/-- C2 (amended): during a streaming request, every store write performed by
the read loop is the submitted snapshot plus a single trailing assistant
message carrying the generated reply id and creation timestamp (the tail is
replaced, never appended); the successive tail contents are the cumulative
in-order concatenations of the decoded chunks, so the tail content length is
non-decreasing across writes — strictly growing when every decoded chunk is
nonempty — and the final content equals the concatenation of all decoded
chunks. -/
theorem stream_intermediate_writes (cfg : Config) (st0 : StoreCell)
    (snap : List Message) (chunks : List String) (bodyText : String)
    (hr : HookResult) (h : hookError hr = none) :
    (∀ w ∈ (triggerRequest cfg st0 snap
        { fetchResult := FetchResult.respond true bodyText
            (some (normalEvents chunks)),
          onResponse := hr }).writes.drop 1,
      ∃ s : String, w = snap ++ [assistantMessage cfg s]) ∧
    ((triggerRequest cfg st0 snap
        { fetchResult := FetchResult.respond true bodyText
            (some (normalEvents chunks)),
          onResponse := hr }).writes.drop 1).map tailContent =
      cumTexts "" chunks ∧
    List.Chain' (fun a b : Nat => a ≤ b)
      (((triggerRequest cfg st0 snap
          { fetchResult := FetchResult.respond true bodyText
              (some (normalEvents chunks)),
            onResponse := hr }).writes.drop 1).map
        (fun w => (tailContent w).length)) ∧
    ((∀ c ∈ chunks, c ≠ "") →
      List.Chain' (fun a b : Nat => a < b)
        (((triggerRequest cfg st0 snap
            { fetchResult := FetchResult.respond true bodyText
                (some (normalEvents chunks)),
              onResponse := hr }).writes.drop 1).map
          (fun w => (tailContent w).length))) ∧
    (chunks ≠ [] →
      tailContent (triggerRequest cfg st0 snap
          { fetchResult := FetchResult.respond true bodyText
              (some (normalEvents chunks)),
            onResponse := hr }).store.data = joinChunks chunks) := by
  rw [triggerRequest_normal_run cfg st0 snap chunks bodyText hr h]
  have hmap : ((snap :: streamWrites cfg snap "" chunks).drop 1).map tailContent
      = cumTexts "" chunks := by
    show (streamWrites cfg snap "" chunks).map tailContent = cumTexts "" chunks
    exact streamWrites_map_tailContent cfg snap chunks ""
  have hlen : ((snap :: streamWrites cfg snap "" chunks).drop 1).map
      (fun w => (tailContent w).length) = (cumTexts "" chunks).map String.length := by
    show (streamWrites cfg snap "" chunks).map (fun w => (tailContent w).length)
      = (cumTexts "" chunks).map String.length
    rw [show (fun w => (tailContent w).length)
        = (String.length ∘ tailContent) from rfl]
    rw [← List.map_map, streamWrites_map_tailContent cfg snap chunks ""]
  refine ⟨?_, hmap, ?_, ?_, ?_⟩
  · intro w hw
    exact streamWrites_mem cfg snap chunks "" w (by simpa using hw)
  · rw [hlen]
    exact cumTexts_map_length_le chunks ""
  · intro hne
    rw [hlen]
    exact cumTexts_map_length_lt chunks "" hne
  · intro hne
    cases chunks with
    | nil => exact absurd rfl hne
    | cons c cs =>
        show tailContent
          ((snap :: streamWrites cfg snap "" (c :: cs)).getLastD []) = _
        rw [List.getLastD_cons, streamWrites_getLastD, tailContent_concat]
        rfl

/-- C2 witness: streaming `"He"` then `"llo"`, the two streaming writes carry
tail contents `"He"` and `"Hello"`, their lengths grow strictly, and the
final tail content is `"Hello"`. -/
theorem stream_intermediate_writes_witness :
    ((triggerRequest sampleConfig (mutateCell []) [userHi]
        { fetchResult := FetchResult.respond true ""
            (some (normalEvents ["He", "llo"])),
          onResponse := HookResult.absent }).writes.drop 1).map tailContent =
      ["He", "Hello"] ∧
    List.Chain' (fun a b : Nat => a < b)
      (((triggerRequest sampleConfig (mutateCell []) [userHi]
          { fetchResult := FetchResult.respond true ""
              (some (normalEvents ["He", "llo"])),
            onResponse := HookResult.absent }).writes.drop 1).map
        (fun w => (tailContent w).length)) ∧
    tailContent (triggerRequest sampleConfig (mutateCell []) [userHi]
        { fetchResult := FetchResult.respond true ""
            (some (normalEvents ["He", "llo"])),
          onResponse := HookResult.absent }).store.data = "Hello" := by
  have h := stream_intermediate_writes sampleConfig (mutateCell []) [userHi]
    ["He", "llo"] "" HookResult.absent rfl
  exact ⟨h.2.1, h.2.2.2.1 (by decide), h.2.2.2.2 (by decide)⟩

theorem catchClause_store (cfg : Config) (st : StoreCell)
    (ws : List (List Message)) (rb : List WireMessage) (e : Err) :
    (catchClause cfg st ws rb e).store = st := by
  unfold catchClause
  split <;> rfl

theorem catchClause_writes (cfg : Config) (st : StoreCell)
    (ws : List (List Message)) (rb : List WireMessage) (e : Err) :
    (catchClause cfg st ws rb e).writes = ws := by
  unfold catchClause
  split <;> rfl

theorem catchClause_error (cfg : Config) (st : StoreCell)
    (ws : List (List Message)) (rb : List WireMessage) (e : Err)
    (hn : e.name ≠ "AbortError") :
    (catchClause cfg st ws rb e).result = TriggerResult.undef ∧
    (catchClause cfg st ws rb e).errorSig = some e ∧
    (cfg.onErrorPresent = true →
      (catchClause cfg st ws rb e).onErrorCalls = [e]) := by
  unfold catchClause
  rw [if_neg hn]
  exact ⟨rfl, rfl, fun hp => by simp [hp]⟩

theorem catchClause_abort (cfg : Config) (st : StoreCell)
    (ws : List (List Message)) (rb : List WireMessage) (e : Err)
    (hn : e.name = "AbortError") :
    (catchClause cfg st ws rb e).result = TriggerResult.null ∧
    (catchClause cfg st ws rb e).errorSig = none ∧
    (catchClause cfg st ws rb e).onErrorCalls = [] := by
  unfold catchClause
  rw [if_pos hn]
  exact ⟨rfl, rfl, rfl⟩

/-- C3 counterexample: a fetch rejection carrying an `AbortError` (the
rejection produced by `stop()` during the network call) with a `success`
pre-request snapshot restores the snapshot into the store, but the error
accessor stays empty — contradicting the claim that it becomes non-empty for
every fetch rejection. -/
theorem abort_reject_restores_without_error :
    (triggerRequest sampleConfig
        { status := StoreStatus.success, data := [userHi] } [userHi, userBye]
        { fetchResult := FetchResult.reject
            { name := "AbortError", message := "The user aborted a request." },
          onResponse := HookResult.absent }).store.data = [userHi] ∧
    (triggerRequest sampleConfig
        { status := StoreStatus.success, data := [userHi] } [userHi, userBye]
        { fetchResult := FetchResult.reject
            { name := "AbortError", message := "The user aborted a request." },
          onResponse := HookResult.absent }).errorSig = none := by
  refine ⟨by decide, by decide⟩

/-- C3 (amended): when the fetch itself rejects, the store is restored to the
pre-request snapshot exactly when that snapshot's status was `success` (and
is left at the optimistic write otherwise); the error accessor becomes
non-empty for every rejection except an `AbortError` (cancellation), which is
benign: no error is surfaced and the run resolves with `null`. -/
theorem fetch_reject_restore_and_error (cfg : Config) (st0 : StoreCell)
    (snap : List Message) (e : Err) (hr : HookResult) :
    (st0.status = StoreStatus.success →
      (triggerRequest cfg st0 snap
          { fetchResult := FetchResult.reject e, onResponse := hr }).store =
        mutateCell st0.data) ∧
    (st0.status ≠ StoreStatus.success →
      (triggerRequest cfg st0 snap
          { fetchResult := FetchResult.reject e, onResponse := hr }).store =
        mutateCell snap) ∧
    (e.name ≠ "AbortError" →
      (triggerRequest cfg st0 snap
          { fetchResult := FetchResult.reject e, onResponse := hr }).errorSig =
          some e ∧
      (triggerRequest cfg st0 snap
          { fetchResult := FetchResult.reject e, onResponse := hr }).result =
        TriggerResult.undef) ∧
    (e.name = "AbortError" →
      (triggerRequest cfg st0 snap
          { fetchResult := FetchResult.reject e, onResponse := hr }).errorSig =
          none ∧
      (triggerRequest cfg st0 snap
          { fetchResult := FetchResult.reject e, onResponse := hr }).result =
        TriggerResult.null) := by
  refine ⟨fun hs => ?_, fun hs => ?_, fun hn => ?_, fun hn => ?_⟩
  · simp [triggerRequest, catchClause_store, hs]
  · simp [triggerRequest, catchClause_store, hs]
  · have h := catchClause_error cfg
      (if st0.status = StoreStatus.success then mutateCell st0.data
        else mutateCell snap)
      (if st0.status = StoreStatus.success then [snap, st0.data] else [snap])
      (serializeBodyMessages cfg.sendExtraMessageFields snap) e hn
    exact ⟨h.2.1, h.1⟩
  · have h := catchClause_abort cfg
      (if st0.status = StoreStatus.success then mutateCell st0.data
        else mutateCell snap)
      (if st0.status = StoreStatus.success then [snap, st0.data] else [snap])
      (serializeBodyMessages cfg.sendExtraMessageFields snap) e hn
    exact ⟨h.2.1, h.1⟩

/-- C3 witness: a non-abort network failure over a `success` snapshot
restores `[userHi]` and surfaces the error. -/
theorem fetch_reject_restore_and_error_witness :
    (triggerRequest sampleConfig
        { status := StoreStatus.success, data := [userHi] } [userHi, userBye]
        { fetchResult := FetchResult.reject
            { name := "TypeError", message := "Failed to fetch" },
          onResponse := HookResult.absent }).store = mutateCell [userHi] ∧
    (triggerRequest sampleConfig
        { status := StoreStatus.success, data := [userHi] } [userHi, userBye]
        { fetchResult := FetchResult.reject
            { name := "TypeError", message := "Failed to fetch" },
          onResponse := HookResult.absent }).errorSig =
      some { name := "TypeError", message := "Failed to fetch" } := by
  have h := fetch_reject_restore_and_error sampleConfig
    { status := StoreStatus.success, data := [userHi] } [userHi, userBye]
    { name := "TypeError", message := "Failed to fetch" } HookResult.absent
  exact ⟨h.1 rfl, (h.2.2.1 (by decide)).1⟩

theorem triggerRequest_not_ok (cfg : Config) (st0 : StoreCell)
    (snap : List Message) (bodyText : String) (body : Option (List ReadEvent))
    (hr : HookResult) (h : hookError hr = none) :
    triggerRequest cfg st0 snap
        { fetchResult := FetchResult.respond false bodyText body,
          onResponse := hr } =
      catchClause cfg
        (if st0.status = StoreStatus.success then mutateCell st0.data
          else mutateCell snap)
        (if st0.status = StoreStatus.success then [snap, st0.data] else [snap])
        (serializeBodyMessages cfg.sendExtraMessageFields snap)
        { name := "Error",
          message := if bodyText = "" then "Failed to fetch the chat response."
            else bodyText } := by
  simp only [triggerRequest, h]
  exact if_pos trivial

theorem triggerRequest_no_body (cfg : Config) (st0 : StoreCell)
    (snap : List Message) (bodyText : String) (hr : HookResult)
    (h : hookError hr = none) :
    triggerRequest cfg st0 snap
        { fetchResult := FetchResult.respond true bodyText none,
          onResponse := hr } =
      catchClause cfg (mutateCell snap) [snap]
        (serializeBodyMessages cfg.sendExtraMessageFields snap)
        { name := "Error", message := "The response body is empty." } := by
  simp only [triggerRequest, h]
  rfl

/-- C4 counterexample: a response with success status but no body over a
`success` pre-request snapshot is NOT restored — the optimistically written
snapshot `[userHi, userBye]` stays in the store — and the surfaced error
message is the fixed string `"The response body is empty."`, not the
response body text. -/
theorem missing_body_not_restored :
    (triggerRequest sampleConfig
        { status := StoreStatus.success, data := [userHi] } [userHi, userBye]
        { fetchResult := FetchResult.respond true "ignored body text" none,
          onResponse := HookResult.absent }).store.data = [userHi, userBye] ∧
    (triggerRequest sampleConfig
        { status := StoreStatus.success, data := [userHi] } [userHi, userBye]
        { fetchResult := FetchResult.respond true "ignored body text" none,
          onResponse := HookResult.absent }).errorSig =
      some { name := "Error", message := "The response body is empty." } := by
  refine ⟨by decide, by decide⟩

/-- C4 (amended): a response with non-success status restores the
pre-request snapshot exactly when its status was `success` and fails with an
error whose message is the response body text, or the default
`"Failed to fetch the chat response."` when that text is empty; a response
with success status but no body does NOT restore the snapshot (the optimistic
write stays) and fails with the fixed message `"The response body is
empty."`. -/
theorem bad_response_restore_and_error (cfg : Config) (st0 : StoreCell)
    (snap : List Message) (bodyText : String) (body : Option (List ReadEvent))
    (hr : HookResult) (h : hookError hr = none) :
    (st0.status = StoreStatus.success →
      (triggerRequest cfg st0 snap
          { fetchResult := FetchResult.respond false bodyText body,
            onResponse := hr }).store = mutateCell st0.data) ∧
    (st0.status ≠ StoreStatus.success →
      (triggerRequest cfg st0 snap
          { fetchResult := FetchResult.respond false bodyText body,
            onResponse := hr }).store = mutateCell snap) ∧
    (triggerRequest cfg st0 snap
        { fetchResult := FetchResult.respond false bodyText body,
          onResponse := hr }).errorSig =
      some { name := "Error",
             message := if bodyText = "" then
                 "Failed to fetch the chat response."
               else bodyText } ∧
    (triggerRequest cfg st0 snap
        { fetchResult := FetchResult.respond false bodyText body,
          onResponse := hr }).result = TriggerResult.undef ∧
    (triggerRequest cfg st0 snap
        { fetchResult := FetchResult.respond true bodyText none,
          onResponse := hr }).store = mutateCell snap ∧
    (triggerRequest cfg st0 snap
        { fetchResult := FetchResult.respond true bodyText none,
          onResponse := hr }).errorSig =
      some { name := "Error", message := "The response body is empty." } ∧
    (triggerRequest cfg st0 snap
        { fetchResult := FetchResult.respond true bodyText none,
          onResponse := hr }).result = TriggerResult.undef := by
  rw [triggerRequest_not_ok cfg st0 snap bodyText body hr h,
    triggerRequest_no_body cfg st0 snap bodyText hr h]
  have hname : (("Error" : String)) ≠ "AbortError" := by decide
  refine ⟨fun hs => ?_, fun hs => ?_, ?_, ?_, ?_, ?_, ?_⟩
  · rw [catchClause_store, if_pos hs]
  · rw [catchClause_store, if_neg hs]
  · exact (catchClause_error cfg
      (if st0.status = StoreStatus.success then mutateCell st0.data
        else mutateCell snap)
      (if st0.status = StoreStatus.success then [snap, st0.data] else [snap])
      (serializeBodyMessages cfg.sendExtraMessageFields snap)
      { name := "Error",
        message := if bodyText = "" then "Failed to fetch the chat response."
          else bodyText } hname).2.1
  · exact (catchClause_error cfg
      (if st0.status = StoreStatus.success then mutateCell st0.data
        else mutateCell snap)
      (if st0.status = StoreStatus.success then [snap, st0.data] else [snap])
      (serializeBodyMessages cfg.sendExtraMessageFields snap)
      { name := "Error",
        message := if bodyText = "" then "Failed to fetch the chat response."
          else bodyText } hname).1
  · rw [catchClause_store]
  · exact (catchClause_error cfg (mutateCell snap) [snap]
      (serializeBodyMessages cfg.sendExtraMessageFields snap)
      { name := "Error", message := "The response body is empty." } hname).2.1
  · exact (catchClause_error cfg (mutateCell snap) [snap]
      (serializeBodyMessages cfg.sendExtraMessageFields snap)
      { name := "Error", message := "The response body is empty." } hname).1

/-- C4 witness: a 500-style response with body `"rate limited"` over the
`success` snapshot `[]` reverts the store to `[]` and surfaces the error
message `"rate limited"`. -/
theorem bad_response_restore_and_error_witness :
    (triggerRequest sampleConfig
        { status := StoreStatus.success, data := [] } [userHi]
        { fetchResult := FetchResult.respond false "rate limited" none,
          onResponse := HookResult.absent }).store = mutateCell [] ∧
    (triggerRequest sampleConfig
        { status := StoreStatus.success, data := [] } [userHi]
        { fetchResult := FetchResult.respond false "rate limited" none,
          onResponse := HookResult.absent }).errorSig =
      some { name := "Error", message := "rate limited" } := by
  have h := bad_response_restore_and_error sampleConfig
    { status := StoreStatus.success, data := [] } [userHi] "rate limited"
    none HookResult.absent rfl
  exact ⟨h.1 rfl, h.2.2.1⟩

theorem readLoop_stopped (cfg : Config) (snap : List Message)
    (cs : List String) (c : String) (rest : List ReadEvent) (acc : String) :
    readLoop cfg snap (normalEvents cs ++ ReadEvent.chunk c true :: rest) acc =
      ((acc ++ joinChunks cs) ++ c,
       streamWrites cfg snap acc cs ++
         [snap ++ [assistantMessage cfg ((acc ++ joinChunks cs) ++ c)]],
       false) := by
  rw [readLoop_normal_append]
  rfl

theorem readLoop_abortRead (cfg : Config) (snap : List Message)
    (cs : List String) (rest : List ReadEvent) (acc : String) :
    readLoop cfg snap (normalEvents cs ++ ReadEvent.abortReject :: rest) acc =
      (acc ++ joinChunks cs, streamWrites cfg snap acc cs, true) := by
  rw [readLoop_normal_append]
  simp [readLoop]

theorem getLastD_cons_concat {α : Type} (x : α) (l : List α) (w d : α) :
    (x :: (l ++ [w])).getLastD d = w := by
  rw [show x :: (l ++ [w]) = (x :: l) ++ [w] from rfl]
  exact List.getLastD_concat d w (x :: l)

theorem triggerRequest_stopped_run (cfg : Config) (st0 : StoreCell)
    (snap : List Message) (cs : List String) (c : String)
    (rest : List ReadEvent) (bodyText : String) (hr : HookResult)
    (h : hookError hr = none) :
    triggerRequest cfg st0 snap
        { fetchResult := FetchResult.respond true bodyText
            (some (normalEvents cs ++ ReadEvent.chunk c true :: rest)),
          onResponse := hr } =
      { result := TriggerResult.text (joinChunks cs ++ c),
        store := mutateCell
          (snap ++ [assistantMessage cfg (joinChunks cs ++ c)]),
        writes := snap :: (streamWrites cfg snap "" cs ++
          [snap ++ [assistantMessage cfg (joinChunks cs ++ c)]]),
        errorSig := none, isLoading := false,
        requestBody := serializeBodyMessages cfg.sendExtraMessageFields snap,
        onErrorCalls := [],
        onFinishCalls :=
          if cfg.onFinishPresent then
            [assistantMessage cfg (joinChunks cs ++ c)]
          else [] } := by
  rw [triggerRequest_stream cfg st0 snap
    (normalEvents cs ++ ReadEvent.chunk c true :: rest) bodyText hr h,
    readLoop_stopped]
  rw [getLastD_cons_concat]
  rfl

theorem triggerRequest_abortread_run (cfg : Config) (st0 : StoreCell)
    (snap : List Message) (cs : List String) (rest : List ReadEvent)
    (bodyText : String) (hr : HookResult) (h : hookError hr = none) :
    triggerRequest cfg st0 snap
        { fetchResult := FetchResult.respond true bodyText
            (some (normalEvents cs ++ ReadEvent.abortReject :: rest)),
          onResponse := hr } =
      catchClause cfg
        (mutateCell ((snap :: streamWrites cfg snap "" cs).getLastD []))
        (snap :: streamWrites cfg snap "" cs)
        (serializeBodyMessages cfg.sendExtraMessageFields snap)
        abortReadError := by
  rw [triggerRequest_stream cfg st0 snap
    (normalEvents cs ++ ReadEvent.abortReject :: rest) bodyText hr h,
    readLoop_abortRead]
  rfl

/-- C5 counterexample: when `stop()` is observed through the cleared
cancellation handle (the read resolves a chunk, the write happens, then the
`abortController === null` check breaks the loop), the run resolves with the
partial accumulated text `"a"`, not with `null` as the claim asserts. -/
theorem stop_cleared_handle_resolves_text :
    (triggerRequest sampleConfig (mutateCell []) [userHi]
        { fetchResult := FetchResult.respond true ""
            (some [ReadEvent.chunk "a" true]),
          onResponse := HookResult.absent }).result = TriggerResult.text "a" ∧
    (triggerRequest sampleConfig (mutateCell []) [userHi]
        { fetchResult := FetchResult.respond true ""
            (some [ReadEvent.chunk "a" true]),
          onResponse := HookResult.absent }).result ≠ TriggerResult.null := by
  refine ⟨by decide, by decide⟩

/-- C5 (amended): cancellation is never surfaced as an error, no chunk write
happens after the read at which it is observed, and partial content already
written stays in the store; but the resolution value depends on how the
cancellation is observed.  If a read rejects with an `AbortError` after the
clean chunks `cs`, the run resolves `null`, the writes are exactly the
optimistic write plus one write per clean chunk, and the store keeps the last
partial write (the bare snapshot when no chunk arrived).  If instead the
cleared handle is observed at the check after a chunk `c` was read and
written, the loop performs that one write, reads nothing further (the events
in `rest` are never consumed), and the run resolves with the partial text —
not `null`. -/
theorem stop_cancellation_semantics (cfg : Config) (st0 : StoreCell)
    (snap : List Message) (cs : List String) (c : String)
    (rest : List ReadEvent) (bodyText : String) (hr : HookResult)
    (h : hookError hr = none) :
    (triggerRequest cfg st0 snap
        { fetchResult := FetchResult.respond true bodyText
            (some (normalEvents cs ++ ReadEvent.chunk c true :: rest)),
          onResponse := hr }).result =
      TriggerResult.text (joinChunks cs ++ c) ∧
    (triggerRequest cfg st0 snap
        { fetchResult := FetchResult.respond true bodyText
            (some (normalEvents cs ++ ReadEvent.chunk c true :: rest)),
          onResponse := hr }).errorSig = none ∧
    (triggerRequest cfg st0 snap
        { fetchResult := FetchResult.respond true bodyText
            (some (normalEvents cs ++ ReadEvent.chunk c true :: rest)),
          onResponse := hr }).onErrorCalls = [] ∧
    (triggerRequest cfg st0 snap
        { fetchResult := FetchResult.respond true bodyText
            (some (normalEvents cs ++ ReadEvent.chunk c true :: rest)),
          onResponse := hr }).writes =
      snap :: (streamWrites cfg snap "" cs ++
        [snap ++ [assistantMessage cfg (joinChunks cs ++ c)]]) ∧
    (triggerRequest cfg st0 snap
        { fetchResult := FetchResult.respond true bodyText
            (some (normalEvents cs ++ ReadEvent.chunk c true :: rest)),
          onResponse := hr }).store =
      mutateCell (snap ++ [assistantMessage cfg (joinChunks cs ++ c)]) ∧
    (triggerRequest cfg st0 snap
        { fetchResult := FetchResult.respond true bodyText
            (some (normalEvents cs ++ ReadEvent.abortReject :: rest)),
          onResponse := hr }).result = TriggerResult.null ∧
    (triggerRequest cfg st0 snap
        { fetchResult := FetchResult.respond true bodyText
            (some (normalEvents cs ++ ReadEvent.abortReject :: rest)),
          onResponse := hr }).errorSig = none ∧
    (triggerRequest cfg st0 snap
        { fetchResult := FetchResult.respond true bodyText
            (some (normalEvents cs ++ ReadEvent.abortReject :: rest)),
          onResponse := hr }).onErrorCalls = [] ∧
    (triggerRequest cfg st0 snap
        { fetchResult := FetchResult.respond true bodyText
            (some (normalEvents cs ++ ReadEvent.abortReject :: rest)),
          onResponse := hr }).writes = snap :: streamWrites cfg snap "" cs ∧
    (cs ≠ [] →
      (triggerRequest cfg st0 snap
          { fetchResult := FetchResult.respond true bodyText
              (some (normalEvents cs ++ ReadEvent.abortReject :: rest)),
            onResponse := hr }).store =
        mutateCell (snap ++ [assistantMessage cfg (joinChunks cs)])) ∧
    (cs = [] →
      (triggerRequest cfg st0 snap
          { fetchResult := FetchResult.respond true bodyText
              (some (normalEvents cs ++ ReadEvent.abortReject :: rest)),
            onResponse := hr }).store = mutateCell snap) := by
  rw [triggerRequest_stopped_run cfg st0 snap cs c rest bodyText hr h,
    triggerRequest_abortread_run cfg st0 snap cs rest bodyText hr h]
  have habort := catchClause_abort cfg
    (mutateCell ((snap :: streamWrites cfg snap "" cs).getLastD []))
    (snap :: streamWrites cfg snap "" cs)
    (serializeBodyMessages cfg.sendExtraMessageFields snap)
    abortReadError rfl
  refine ⟨rfl, rfl, rfl, rfl, rfl, habort.1, habort.2.1, habort.2.2, ?_,
    fun hne => ?_, fun he => ?_⟩
  · rw [catchClause_writes]
  · rw [catchClause_store]
    cases cs with
    | nil => exact absurd rfl hne
    | cons c0 cs0 =>
        rw [List.getLastD_cons, streamWrites_getLastD]
        rfl
  · subst he
    rw [catchClause_store]
    rfl

/-- C5 witness: after one clean chunk `"He"`, a read rejecting with an
`AbortError` resolves the run with `null`, surfaces no error, and keeps the
partial assistant content `"He"` in the store. -/
theorem stop_cancellation_semantics_witness :
    (triggerRequest sampleConfig (mutateCell []) [userHi]
        { fetchResult := FetchResult.respond true ""
            (some (normalEvents ["He"] ++ ReadEvent.abortReject :: [])),
          onResponse := HookResult.absent }).result = TriggerResult.null ∧
    (triggerRequest sampleConfig (mutateCell []) [userHi]
        { fetchResult := FetchResult.respond true ""
            (some (normalEvents ["He"] ++ ReadEvent.abortReject :: [])),
          onResponse := HookResult.absent }).errorSig = none ∧
    (triggerRequest sampleConfig (mutateCell []) [userHi]
        { fetchResult := FetchResult.respond true ""
            (some (normalEvents ["He"] ++ ReadEvent.abortReject :: [])),
          onResponse := HookResult.absent }).store =
      mutateCell [userHi, assistantMessage sampleConfig "He"] := by
  have h := stop_cancellation_semantics sampleConfig (mutateCell []) [userHi]
    ["He"] "x" [] "" HookResult.absent rfl
  exact ⟨h.2.2.2.2.2.1, h.2.2.2.2.2.2.1, h.2.2.2.2.2.2.2.2.2.1 (by decide)⟩

/-- The error (if any) raised inside the try block of `triggerRequest` in
environment `env`: a fetch rejection, the `onResponse` hook's thrown error,
the constructed non-success-status error, the missing-body error, or the
`AbortError` with which an aborted stream read rejects. -/
def raisedError (env : Env) : Option Err :=
  match env.fetchResult with
  | FetchResult.reject e => some e
  | FetchResult.respond ok bodyText body =>
      match hookError env.onResponse with
      | some e => some e
      | none =>
          if ok = false then
            some { name := "Error",
                   message := if bodyText = "" then
                       "Failed to fetch the chat response."
                     else bodyText }
          else
            match body with
            | none => some { name := "Error",
                             message := "The response body is empty." }
            | some events =>
                if streamAborts events then some abortReadError else none

theorem triggerRequest_raisedError (cfg : Config) (st0 : StoreCell)
    (snap : List Message) (env : Env) (e : Err)
    (hra : raisedError env = some e) (hn : e.name ≠ "AbortError") :
    (triggerRequest cfg st0 snap env).result = TriggerResult.undef ∧
    (triggerRequest cfg st0 snap env).errorSig = some e ∧
    (cfg.onErrorPresent = true →
      (triggerRequest cfg st0 snap env).onErrorCalls = [e]) := by
  rcases env with ⟨fr, hr⟩
  cases fr with
  | reject e0 =>
      have he : e0 = e := by simpa [raisedError] using hra
      subst he
      simp only [triggerRequest]
      exact catchClause_error cfg _ _ _ e0 hn
  | respond ok bodyText body =>
      cases hhr : hookError hr with
      | some e0 =>
          have he : e0 = e := by simpa [raisedError, hhr] using hra
          subst he
          simp only [triggerRequest, hhr]
          exact catchClause_error cfg _ _ _ e0 hn
      | none =>
          cases ok with
          | false =>
              have he : e = { name := "Error",
                              message := if bodyText = "" then
                                  "Failed to fetch the chat response."
                                else bodyText } := by
                have := hra
                simp [raisedError, hhr] at this
                exact this.symm
              rw [triggerRequest_not_ok cfg st0 snap bodyText body hr hhr, he]
              exact catchClause_error cfg _ _ _ _ (he ▸ hn)
          | true =>
              cases body with
              | none =>
                  have he : e = { name := "Error",
                                  message := "The response body is empty." } := by
                    have := hra
                    simp [raisedError, hhr] at this
                    exact this.symm
                  rw [triggerRequest_no_body cfg st0 snap bodyText hr hhr, he]
                  exact catchClause_error cfg _ _ _ _ (he ▸ hn)
              | some events =>
                  by_cases hsa : streamAborts events = true
                  · have he : e = abortReadError := by
                      have := hra
                      simp [raisedError, hhr, hsa] at this
                      exact this.symm
                    exact absurd (by rw [he]; rfl) hn
                  · have : False := by
                      simp [raisedError, hhr, hsa] at hra
                    exact absurd this (fun hf => hf)

/-- C9: every non-cancellation error raised during a request (transport
failure, non-success response, missing body, or an error thrown by the
`onResponse` hook) makes the promise returned by `triggerRequest` — and hence
by `append` / `reload`, which return it directly — fulfil with `undefined`
rather than reject: the error is recorded in the error accessor and passed to
the `onError` hook when one is configured. -/
theorem nonabort_error_fulfils_undefined (cfg : Config) (st0 : StoreCell)
    (snap : List Message) (env : Env) (e : Err)
    (hra : raisedError env = some e) (hn : e.name ≠ "AbortError") :
    ((triggerRequest cfg st0 snap env).result = TriggerResult.undef ∧
     (triggerRequest cfg st0 snap env).errorSig = some e ∧
     (cfg.onErrorPresent = true →
       (triggerRequest cfg st0 snap env).onErrorCalls = [e])) ∧
    (∀ (current : List Message) (message : Message) (freshId : String),
      (append cfg st0 env current message freshId).result =
        TriggerResult.undef) := by
  refine ⟨triggerRequest_raisedError cfg st0 snap env e hra hn,
    fun current message freshId => ?_⟩
  exact (triggerRequest_raisedError cfg st0
    (current ++ [ensureId freshId message]) env e hra hn).1

/-- C9 witness: a plain network failure fulfils the promise with
`undefined`, records the error, and passes it to the `onError` hook; the
`append` promise behaves the same. -/
theorem nonabort_error_fulfils_undefined_witness :
    (triggerRequest sampleConfig (mutateCell []) [userHi]
        { fetchResult := FetchResult.reject
            { name := "TypeError", message := "network down" },
          onResponse := HookResult.absent }).result = TriggerResult.undef ∧
    (triggerRequest sampleConfig (mutateCell []) [userHi]
        { fetchResult := FetchResult.reject
            { name := "TypeError", message := "network down" },
          onResponse := HookResult.absent }).errorSig =
      some { name := "TypeError", message := "network down" } ∧
    (triggerRequest sampleConfig (mutateCell []) [userHi]
        { fetchResult := FetchResult.reject
            { name := "TypeError", message := "network down" },
          onResponse := HookResult.absent }).onErrorCalls =
      [{ name := "TypeError", message := "network down" }] ∧
    (append sampleConfig (mutateCell [])
        { fetchResult := FetchResult.reject
            { name := "TypeError", message := "network down" },
          onResponse := HookResult.absent } [] userBye "fresh-id").result =
      TriggerResult.undef := by
  have h := nonabort_error_fulfils_undefined sampleConfig (mutateCell [])
    [userHi]
    { fetchResult := FetchResult.reject
        { name := "TypeError", message := "network down" },
      onResponse := HookResult.absent }
    { name := "TypeError", message := "network down" } rfl (by decide)
  exact ⟨h.1.1, h.1.2.1, h.1.2.2 rfl, h.2 [] userBye "fresh-id"⟩

/-- C10 counterexample: if the `onResponse` hook throws an error whose name
is `AbortError`, the request does not fail with that error: it resolves
`null` and surfaces nothing — though the optimistic snapshot indeed stays in
the store. -/
theorem onresponse_abort_named_throw_not_failing :
    (triggerRequest sampleConfig
        { status := StoreStatus.success, data := [userHi] } [userHi, userBye]
        { fetchResult := FetchResult.respond true "" (some []),
          onResponse := HookResult.throws
            { name := "AbortError", message := "hook aborted" } }).errorSig =
      none ∧
    (triggerRequest sampleConfig
        { status := StoreStatus.success, data := [userHi] } [userHi, userBye]
        { fetchResult := FetchResult.respond true "" (some []),
          onResponse := HookResult.throws
            { name := "AbortError", message := "hook aborted" } }).result =
      TriggerResult.null ∧
    (triggerRequest sampleConfig
        { status := StoreStatus.success, data := [userHi] } [userHi, userBye]
        { fetchResult := FetchResult.respond true "" (some []),
          onResponse := HookResult.throws
            { name := "AbortError", message := "hook aborted" } }).store.data =
      [userHi, userBye] := by
  refine ⟨by decide, by decide, by decide⟩

/-- C10 (amended): when the `onResponse` hook throws, the store is never
reverted — the optimistically written snapshot remains the store state for
the key; the request fails with the hook's error exactly when that error's
name is not `AbortError`, while an `AbortError`-named hook error makes the
run resolve `null` with no error surfaced. -/
theorem onresponse_throw_keeps_optimistic (cfg : Config) (st0 : StoreCell)
    (snap : List Message) (ok : Bool) (bodyText : String)
    (body : Option (List ReadEvent)) (e : Err) :
    (triggerRequest cfg st0 snap
        { fetchResult := FetchResult.respond ok bodyText body,
          onResponse := HookResult.throws e }).store = mutateCell snap ∧
    (e.name ≠ "AbortError" →
      (triggerRequest cfg st0 snap
          { fetchResult := FetchResult.respond ok bodyText body,
            onResponse := HookResult.throws e }).result =
          TriggerResult.undef ∧
      (triggerRequest cfg st0 snap
          { fetchResult := FetchResult.respond ok bodyText body,
            onResponse := HookResult.throws e }).errorSig = some e) ∧
    (e.name = "AbortError" →
      (triggerRequest cfg st0 snap
          { fetchResult := FetchResult.respond ok bodyText body,
            onResponse := HookResult.throws e }).result =
          TriggerResult.null ∧
      (triggerRequest cfg st0 snap
          { fetchResult := FetchResult.respond ok bodyText body,
            onResponse := HookResult.throws e }).errorSig = none) := by
  simp only [triggerRequest, hookError]
  refine ⟨catchClause_store cfg _ _ _ e, fun hn => ?_, fun hn => ?_⟩
  · have h := catchClause_error cfg (mutateCell snap) [snap]
      (serializeBodyMessages cfg.sendExtraMessageFields snap) e hn
    exact ⟨h.1, h.2.1⟩
  · have h := catchClause_abort cfg (mutateCell snap) [snap]
      (serializeBodyMessages cfg.sendExtraMessageFields snap) e hn
    exact ⟨h.1, h.2.1⟩

/-- C10 witness: a hook throwing a plain error fails the request with that
error while the optimistic snapshot `[userHi, userBye]` stays in the
store. -/
theorem onresponse_throw_keeps_optimistic_witness :
    (triggerRequest sampleConfig
        { status := StoreStatus.success, data := [userHi] } [userHi, userBye]
        { fetchResult := FetchResult.respond true "" (some []),
          onResponse := HookResult.throws
            { name := "Error", message := "hook failed" } }).store =
      mutateCell [userHi, userBye] ∧
    (triggerRequest sampleConfig
        { status := StoreStatus.success, data := [userHi] } [userHi, userBye]
        { fetchResult := FetchResult.respond true "" (some []),
          onResponse := HookResult.throws
            { name := "Error", message := "hook failed" } }).result =
      TriggerResult.undef ∧
    (triggerRequest sampleConfig
        { status := StoreStatus.success, data := [userHi] } [userHi, userBye]
        { fetchResult := FetchResult.respond true "" (some []),
          onResponse := HookResult.throws
            { name := "Error", message := "hook failed" } }).errorSig =
      some { name := "Error", message := "hook failed" } := by
  have h := onresponse_throw_keeps_optimistic sampleConfig
    { status := StoreStatus.success, data := [userHi] } [userHi, userBye]
    true "" (some []) { name := "Error", message := "hook failed" }
  exact ⟨h.1, (h.2.1 (by decide)).1, (h.2.1 (by decide)).2⟩
